import Mathlib

/-!
Shallow embedding of the order-processing service in `src/main.py`:
an order store keyed by auto-assigned integer ids, pydantic-style
payload validation, a role header gate (`X-User-Role` must equal
`"staff"` for mutations), structured audit logging through
`JsonFormatter`, and a fire-and-forget notification task scheduled
after a successful update.
-/

namespace OrderApi

/-- The `OrderStatus(str, Enum)` from `src/main.py`. -/
inductive OrderStatus where
  | created
  | processing
  | completed
  | cancelled
deriving DecidableEq

/-- String value of each enum member, as declared in `OrderStatus`. -/
def OrderStatus.toStr : OrderStatus → String
  | .created => "created"
  | .processing => "processing"
  | .completed => "completed"
  | .cancelled => "cancelled"

/-- Pydantic coercion of a raw string into the `OrderStatus` enum:
membership test against the four declared values. -/
def parseStatus (s : String) : Option OrderStatus :=
  if s = "created" then some .created
  else if s = "processing" then some .processing
  else if s = "completed" then some .completed
  else if s = "cancelled" then some .cancelled
  else none

/-- The `Order` ORM entity: id, customer_email, item, status. -/
structure Order where
  id : Nat
  customer_email : String
  item : String
  status : OrderStatus
deriving DecidableEq

/-- The SQLite-backed store: the orders table plus the next
auto-increment primary key the engine will assign. -/
structure DB where
  orders : List Order
  nextId : Nat
deriving DecidableEq

/-- Store invariant: every persisted id is below the auto-increment
counter, as SQLite primary-key assignment guarantees. -/
def DB.wf (db : DB) : Prop := ∀ o ∈ db.orders, o.id < db.nextId

instance (db : DB) : Decidable db.wf :=
  inferInstanceAs (Decidable (∀ o ∈ db.orders, o.id < db.nextId))

/-- Lookup `db.query(Order).filter(Order.id == order_id).first()`. -/
def findOrder (db : DB) (oid : Nat) : Option Order :=
  db.orders.find? (fun o => o.id == oid)

/-- Split a character list at every occurrence of `c`. -/
def splitOnChar (c : Char) : List Char → List (List Char)
  | [] => [[]]
  | a :: rest =>
      match splitOnChar c rest with
      | [] => if a == c then [[], []] else [[a]]
      | seg :: segs => if a == c then [] :: seg :: segs else (a :: seg) :: segs

/-- Modelled from the spec: pydantic's `EmailStr` validator is an
external library not present in `src/`; the spec asks for standard
email syntax, modelled as one `@` separating a non-empty local part
from a domain of at least two non-empty dot-separated labels. -/
def validEmail (s : String) : Bool :=
  match splitOnChar '@' s.data with
  | [lp, dom] =>
      !lp.isEmpty && decide (2 ≤ (splitOnChar '.' dom).length)
        && (splitOnChar '.' dom).all (fun p => !p.isEmpty)
  | _ => false

/-- Field errors for an `OrderCreate` payload, in pydantic's field
declaration order: `customer_email: EmailStr`, then
`item: constr(min_length=1, max_length=100)`. -/
def offendingFields (email itm : String) : List String :=
  (if validEmail email then [] else ["customer_email"])
    ++ (if 1 ≤ itm.length ∧ itm.length ≤ 100 then [] else ["item"])

/-- A raw create request body: the two declared `OrderCreate` fields
plus possible client-supplied extras (pydantic v1 ignores undeclared
fields by default). -/
structure RawCreatePayload where
  customer_email : String
  item : String
  extra_id : Option Nat
  extra_status : Option OrderStatus
deriving DecidableEq

/-- The message slot of a python log record: either plain text (the
audit calls pass an empty string) or `str(log_data)` of the dict built
in `mock_send_email`, modelled structurally by the dict's fields. -/
inductive LogMsg where
  | txt (s : String)
  | dict (event : String) (order_id : Nat) (email : String) (st : OrderStatus)
deriving DecidableEq

/-- A python `logging` record as `JsonFormatter.format` reads it:
`levelname`, `getMessage()`, and the three attributes fetched with
`getattr(record, _, None)`, which are set only via `extra=`. -/
structure LogRecord where
  level : String
  message : LogMsg
  event : Option String
  order_id : Option Nat
  user : Option String
deriving DecidableEq

/-- Values of the formatted dict entries. -/
inductive FieldVal where
  | s (v : String)
  | n (v : Nat)
  | m (v : LogMsg)
deriving DecidableEq

/-- The formatter `JsonFormatter.format`: builds the dict
`{level, message, event, order_id, user}` and drops entries whose
value is `None`; `levelname` and `getMessage()` are never `None`. -/
def formatRecord (r : LogRecord) : List (String × FieldVal) :=
  [("level", .s r.level), ("message", .m r.message)]
    ++ (match r.event with | some e => [("event", .s e)] | none => [])
    ++ (match r.order_id with | some i => [("order_id", .n i)] | none => [])
    ++ (match r.user with | some u => [("user", .s u)] | none => [])

/-- The audit call `logger.info` with an empty message and
`extra={'event': ev, 'order_id': oid, 'user': u}`, as performed by the
create and update handlers. -/
def auditLog (ev : String) (oid : Nat) (u : String) : LogRecord :=
  ⟨"INFO", .txt "", some ev, some oid, some u⟩

/-- The notifier `mock_send_email`: logs `str(log_data)` as the message with no
`extra`, so the record's own event/order_id/user attributes stay
`None`. -/
def mock_send_email (email : String) (oid : Nat) (st : OrderStatus) : LogRecord :=
  ⟨"INFO", .dict "notification_sent" oid email st, none, none, none⟩

/-- An argument tuple queued via `background_tasks.add_task`. -/
structure NotifTask where
  email : String
  order_id : Nat
  status : OrderStatus
deriving DecidableEq

/-- Running one queued background task calls `mock_send_email`. -/
def runTask (t : NotifTask) : LogRecord :=
  mock_send_email t.email t.order_id t.status

/-- HTTP outcomes of the three handlers, with the payloads the
`custom_http_exception_handler` and `response_model` serialize. -/
inductive Response where
  | created (o : Order)
  | ok (o : Order)
  | forbidden (detail : String)
  | notFound (detail : String)
  | unprocessable (fields : List String)
deriving DecidableEq

/-- HTTP code of each outcome. -/
def Response.code : Response → Nat
  | .created _ => 201
  | .ok _ => 200
  | .forbidden _ => 403
  | .notFound _ => 404
  | .unprocessable _ => 422

/-- Result of one handler invocation: response, resulting store,
log records emitted during the request, and queued background tasks. -/
structure HandlerResult where
  response : Response
  db : DB
  logs : List LogRecord
  tasks : List NotifTask
deriving DecidableEq

/-- Handler for `POST /orders/`: `staff_required` dependency first, then pydantic
validation of `OrderCreate` (undeclared payload fields dropped), then
insert with engine-assigned id and default status, then the
`order_created` audit record.  No background task is queued. -/
def create_order (db : DB) (role : Option String) (raw : RawCreatePayload) :
    HandlerResult :=
  if role ≠ some "staff" then
    ⟨.forbidden "Staff privileges required.", db, [], []⟩
  else if offendingFields raw.customer_email raw.item ≠ [] then
    ⟨.unprocessable (offendingFields raw.customer_email raw.item), db, [], []⟩
  else
    ⟨.created ⟨db.nextId, raw.customer_email, raw.item, .created⟩,
      ⟨db.orders ++ [⟨db.nextId, raw.customer_email, raw.item, .created⟩],
        db.nextId + 1⟩,
      [auditLog "order_created" db.nextId "staff"], []⟩

/-- Handler for `PUT /orders/{order_id}`: `staff_required` first, then pydantic
coercion of the body's `status` into the enum, then lookup (404 on
miss), then the status overwrite and commit, the `order_updated`
audit record, and one queued `mock_send_email` task. -/
def update_order (db : DB) (role : Option String) (oid : Nat)
    (rawStatus : String) : HandlerResult :=
  if role ≠ some "staff" then
    ⟨.forbidden "Staff privileges required.", db, [], []⟩
  else
    match parseStatus rawStatus with
    | none => ⟨.unprocessable ["status"], db, [], []⟩
    | some s =>
      match findOrder db oid with
      | none => ⟨.notFound "Order not found.", db, [], []⟩
      | some o =>
        ⟨.ok { o with status := s },
          ⟨db.orders.map (fun p => if p.id == oid then { p with status := s } else p),
            db.nextId⟩,
          [auditLog "order_updated" o.id "staff"],
          [⟨o.customer_email, o.id, s⟩]⟩

/-- Handler for `GET /orders/{order_id}`: no role dependency, no logging, no
background task; lookup only. -/
def get_order (db : DB) (oid : Nat) : HandlerResult :=
  match findOrder db oid with
  | none => ⟨.notFound "Order not found.", db, [], []⟩
  | some o => ⟨.ok o, db, [], []⟩

/-- FastAPI runs queued background tasks only after the response is
sent: their execution appends their log output and changes nothing
else about the already-computed result. -/
def runRequest (h : HandlerResult) : HandlerResult :=
  ⟨h.response, h.db, h.logs ++ h.tasks.map runTask, []⟩

/-- Round trip: each enum member's string value parses back to it. -/
theorem parseStatus_toStr (s : OrderStatus) : parseStatus s.toStr = some s := by
  cases s <;> decide

/-- A search that misses the first list skips it under append. -/
theorem find?_append_of_none {α : Type} (p : α → Bool) (l₁ l₂ : List α)
    (h : l₁.find? p = none) : (l₁ ++ l₂).find? p = l₂.find? p := by
  induction l₁ with
  | nil => rfl
  | cons a t ih =>
      by_cases hpa : p a = true
      · rw [List.find?_cons_of_pos _ hpa] at h
        exact absurd h (by simp)
      · rw [List.find?_cons_of_neg _ hpa] at h
        rw [List.cons_append, List.find?_cons_of_neg _ hpa]
        exact ih h

/-- The well-formed store never already holds the id the engine is
about to assign. -/
theorem find?_nextId_none (db : DB) (hwf : db.wf) :
    db.orders.find? (fun o => o.id == db.nextId) = none := by
  apply List.find?_eq_none.2
  intro x hx h
  have hlt := hwf x hx
  simp only [beq_iff_eq] at h
  omega

/-- Rewriting one id's status commutes with looking that id up. -/
theorem find?_map_setStatus (oid : Nat) (s : OrderStatus) (l : List Order)
    (o : Order) (h : l.find? (fun p => p.id == oid) = some o) :
    (l.map (fun p => if p.id == oid then { p with status := s } else p)).find?
      (fun p => p.id == oid) = some { o with status := s } := by
  induction l with
  | nil => exact absurd h (by simp)
  | cons a t ih =>
      by_cases ha : (a.id == oid) = true
      · rw [@List.find?_cons_of_pos _ (fun p => p.id == oid) a t ha] at h
        obtain rfl : a = o := by simpa using h
        rw [List.map_cons, if_pos ha]
        exact @List.find?_cons_of_pos _ (fun p => p.id == oid)
          { a with status := s } _ ha
      · rw [@List.find?_cons_of_neg _ (fun p => p.id == oid) a t ha] at h
        rw [List.map_cons, if_neg ha]
        rw [@List.find?_cons_of_neg _ (fun p => p.id == oid) a _ ha]
        exact ih h

/-- Rewriting the same id's status twice equals doing it once. -/
theorem map_setStatus_idem (l : List Order) (oid : Nat) (s : OrderStatus) :
    ((l.map (fun p => if p.id == oid then { p with status := s } else p)).map
        (fun p => if p.id == oid then { p with status := s } else p))
      = l.map (fun p => if p.id == oid then { p with status := s } else p) := by
  rw [List.map_map]
  apply List.map_congr_left
  intro p _
  by_cases hp : (p.id == oid) = true
  · simp [Function.comp, hp]
  · simp [Function.comp, hp]

/-- A staff update on an id the store holds: the full handler result. -/
theorem update_order_found (db : DB) (oid : Nat) (o : Order) (s : OrderStatus)
    (hfind : findOrder db oid = some o) :
    update_order db (some "staff") oid s.toStr
      = ⟨.ok { o with status := s },
          ⟨db.orders.map (fun p => if p.id == oid then { p with status := s } else p),
            db.nextId⟩,
          [auditLog "order_updated" o.id "staff"],
          [⟨o.customer_email, o.id, s⟩]⟩ := by
  simp [update_order, parseStatus_toStr, hfind]

/-- Claim C1: with role staff and a payload passing validation, create
answers 201 with an order in status `created` carrying the submitted
fields and the engine-assigned id, appends exactly that order to the
store, and a subsequent get-by-id on the returned id answers 200 with
the identical representation. -/
theorem claim1_create_then_get (db : DB) (raw : RawCreatePayload)
    (hwf : db.wf) (hem : validEmail raw.customer_email = true)
    (hlen : 1 ≤ raw.item.length ∧ raw.item.length ≤ 100) :
    ∃ o : Order,
      create_order db (some "staff") raw
        = ⟨.created o, ⟨db.orders ++ [o], db.nextId + 1⟩,
            [auditLog "order_created" o.id "staff"], []⟩ ∧
      (create_order db (some "staff") raw).response.code = 201 ∧
      o.id = db.nextId ∧ o.customer_email = raw.customer_email ∧
      o.item = raw.item ∧ o.status = .created ∧
      get_order (create_order db (some "staff") raw).db o.id
        = ⟨.ok o, (create_order db (some "staff") raw).db, [], []⟩ := by
  have herr : offendingFields raw.customer_email raw.item = [] := by
    simp [offendingFields, hem, hlen]
  have hco : create_order db (some "staff") raw
      = ⟨.created ⟨db.nextId, raw.customer_email, raw.item, .created⟩,
          ⟨db.orders ++ [⟨db.nextId, raw.customer_email, raw.item, .created⟩],
            db.nextId + 1⟩,
          [auditLog "order_created" db.nextId "staff"], []⟩ := by
    simp [create_order, herr]
  refine ⟨⟨db.nextId, raw.customer_email, raw.item, .created⟩,
    hco, by rw [hco]; rfl, rfl, rfl, rfl, rfl, ?_⟩
  rw [hco]
  show get_order ⟨db.orders ++ [_], db.nextId + 1⟩ db.nextId = _
  unfold get_order findOrder
  rw [show (⟨db.orders ++ [⟨db.nextId, raw.customer_email, raw.item, .created⟩],
      db.nextId + 1⟩ : DB).orders
    = db.orders ++ [⟨db.nextId, raw.customer_email, raw.item, .created⟩] from rfl]
  rw [find?_append_of_none _ _ _ (find?_nextId_none db hwf)]
  simp [List.find?]

/-- Claim C1 witness: one valid payload against a store holding one
well-formed row. -/
theorem claim1_create_then_get_witness :
    DB.wf ⟨[⟨1, "c@d.org", "Gadget", .completed⟩], 2⟩ ∧
    validEmail "a@b.com" = true ∧
    (1 ≤ ("Widget" : String).length ∧ ("Widget" : String).length ≤ 100) ∧
    (∃ o : Order,
      create_order ⟨[⟨1, "c@d.org", "Gadget", .completed⟩], 2⟩ (some "staff")
          ⟨"a@b.com", "Widget", none, none⟩
        = ⟨.created o,
            ⟨[⟨1, "c@d.org", "Gadget", .completed⟩] ++ [o], 2 + 1⟩,
            [auditLog "order_created" o.id "staff"], []⟩ ∧
      (create_order ⟨[⟨1, "c@d.org", "Gadget", .completed⟩], 2⟩ (some "staff")
          ⟨"a@b.com", "Widget", none, none⟩).response.code = 201 ∧
      o.id = 2 ∧ o.customer_email = "a@b.com" ∧
      o.item = "Widget" ∧ o.status = .created ∧
      get_order (create_order ⟨[⟨1, "c@d.org", "Gadget", .completed⟩], 2⟩
          (some "staff") ⟨"a@b.com", "Widget", none, none⟩).db o.id
        = ⟨.ok o, (create_order ⟨[⟨1, "c@d.org", "Gadget", .completed⟩], 2⟩
            (some "staff") ⟨"a@b.com", "Widget", none, none⟩).db, [], []⟩) :=
  ⟨by decide, by decide, by decide,
    claim1_create_then_get ⟨[⟨1, "c@d.org", "Gadget", .completed⟩], 2⟩
      ⟨"a@b.com", "Widget", none, none⟩ (by decide) (by decide) (by decide)⟩

/-- Claim C2: with role staff, updating an existing order to any of the
four enum statuses succeeds with 200 whatever the previous status was,
the returned order carries exactly the submitted status, and its id,
customer_email and item are the stored ones; the stored row agrees. -/
theorem claim2_update_any_status (db : DB) (oid : Nat) (o : Order)
    (s : OrderStatus) (hfind : findOrder db oid = some o) :
    update_order db (some "staff") oid s.toStr
      = ⟨.ok { o with status := s },
          ⟨db.orders.map (fun p => if p.id == oid then { p with status := s } else p),
            db.nextId⟩,
          [auditLog "order_updated" o.id "staff"],
          [⟨o.customer_email, o.id, s⟩]⟩ ∧
    (update_order db (some "staff") oid s.toStr).response.code = 200 ∧
    ({ o with status := s } : Order).status = s ∧
    ({ o with status := s } : Order).id = o.id ∧
    ({ o with status := s } : Order).customer_email = o.customer_email ∧
    ({ o with status := s } : Order).item = o.item ∧
    findOrder (update_order db (some "staff") oid s.toStr).db oid
      = some { o with status := s } := by
  have hu : update_order db (some "staff") oid s.toStr
      = ⟨.ok { o with status := s },
          ⟨db.orders.map (fun p => if p.id == oid then { p with status := s } else p),
            db.nextId⟩,
          [auditLog "order_updated" o.id "staff"],
          [⟨o.customer_email, o.id, s⟩]⟩ := by
    simp [update_order, parseStatus_toStr, hfind]
  refine ⟨hu, by rw [hu]; rfl, rfl, rfl, rfl, rfl, ?_⟩
  rw [hu]
  exact find?_map_setStatus oid s db.orders o hfind

/-- Claim C2 witness: flip a completed order back to created. -/
theorem claim2_update_any_status_witness :
    findOrder ⟨[⟨1, "a@b.com", "Widget", .completed⟩], 2⟩ 1
      = some ⟨1, "a@b.com", "Widget", .completed⟩ ∧
    (update_order ⟨[⟨1, "a@b.com", "Widget", .completed⟩], 2⟩ (some "staff") 1
          OrderStatus.created.toStr
        = ⟨.ok { (⟨1, "a@b.com", "Widget", .completed⟩ : Order) with status := .created },
            ⟨[⟨1, "a@b.com", "Widget", .completed⟩].map
                (fun p => if p.id == 1 then { p with status := OrderStatus.created } else p),
              2⟩,
            [auditLog "order_updated" 1 "staff"],
            [⟨"a@b.com", 1, .created⟩]⟩ ∧
      (update_order ⟨[⟨1, "a@b.com", "Widget", .completed⟩], 2⟩ (some "staff") 1
          OrderStatus.created.toStr).response.code = 200 ∧
      ({ (⟨1, "a@b.com", "Widget", .completed⟩ : Order) with status := OrderStatus.created }).status = .created ∧
      ({ (⟨1, "a@b.com", "Widget", .completed⟩ : Order) with status := OrderStatus.created }).id = 1 ∧
      ({ (⟨1, "a@b.com", "Widget", .completed⟩ : Order) with status := OrderStatus.created }).customer_email = "a@b.com" ∧
      ({ (⟨1, "a@b.com", "Widget", .completed⟩ : Order) with status := OrderStatus.created }).item = "Widget" ∧
      findOrder (update_order ⟨[⟨1, "a@b.com", "Widget", .completed⟩], 2⟩
          (some "staff") 1 OrderStatus.created.toStr).db 1
        = some { (⟨1, "a@b.com", "Widget", .completed⟩ : Order) with status := OrderStatus.created }) :=
  ⟨by decide, claim2_update_any_status ⟨[⟨1, "a@b.com", "Widget", .completed⟩], 2⟩
    1 ⟨1, "a@b.com", "Widget", .completed⟩ .created (by decide)⟩

/-- Claim C5: a create payload with a malformed email or an item of
length 0 or above 100 never touches the store, emits no audit record
and queues no task whatever the role is; with role staff it is
answered by a 422 validation failure naming exactly the offending
fields. -/
theorem claim5_invalid_create (db : DB) (role : Option String)
    (raw : RawCreatePayload)
    (hbad : validEmail raw.customer_email = false ∨ raw.item.length = 0
      ∨ 100 < raw.item.length) :
    (create_order db role raw).db = db ∧
    (create_order db role raw).logs = [] ∧
    (create_order db role raw).tasks = [] ∧
    (role = some "staff" →
      create_order db role raw
        = ⟨.unprocessable (offendingFields raw.customer_email raw.item),
            db, [], []⟩ ∧
      offendingFields raw.customer_email raw.item ≠ []) ∧
    (validEmail raw.customer_email = false →
      "customer_email" ∈ offendingFields raw.customer_email raw.item) ∧
    (raw.item.length = 0 ∨ 100 < raw.item.length →
      "item" ∈ offendingFields raw.customer_email raw.item) := by
  have herr : offendingFields raw.customer_email raw.item ≠ [] := by
    rcases hbad with h | h
    · simp [offendingFields, h]
    · have hn : ¬ (1 ≤ raw.item.length ∧ raw.item.length ≤ 100) := by omega
      simp [offendingFields, hn]
  have hmain : (create_order db role raw).db = db ∧
      (create_order db role raw).logs = [] ∧
      (create_order db role raw).tasks = [] := by
    by_cases hr : role = some "staff"
    · simp [create_order, hr, herr]
    · simp [create_order, hr]
  refine ⟨hmain.1, hmain.2.1, hmain.2.2, ?_, ?_, ?_⟩
  · intro hr
    exact ⟨by simp [create_order, hr, herr], herr⟩
  · intro h
    simp [offendingFields, h]
  · intro h
    have hn : ¬ (1 ≤ raw.item.length ∧ raw.item.length ≤ 100) := by omega
    simp [offendingFields, hn]

/-- Claim C5 witness: an empty item with a bad role still leaves the
store untouched, and with role staff yields the 422 naming `item`. -/
theorem claim5_invalid_create_witness :
    (validEmail "a@b.com" = false ∨ ("" : String).length = 0
      ∨ 100 < ("" : String).length) ∧
    ((create_order ⟨[], 1⟩ (some "staff") ⟨"a@b.com", "", none, none⟩).db = ⟨[], 1⟩ ∧
    (create_order ⟨[], 1⟩ (some "staff") ⟨"a@b.com", "", none, none⟩).logs = [] ∧
    (create_order ⟨[], 1⟩ (some "staff") ⟨"a@b.com", "", none, none⟩).tasks = [] ∧
    ((some "staff" : Option String) = some "staff" →
      create_order ⟨[], 1⟩ (some "staff") ⟨"a@b.com", "", none, none⟩
        = ⟨.unprocessable (offendingFields "a@b.com" ""), ⟨[], 1⟩, [], []⟩ ∧
      offendingFields "a@b.com" "" ≠ []) ∧
    (validEmail "a@b.com" = false →
      "customer_email" ∈ offendingFields "a@b.com" "") ∧
    (("" : String).length = 0 ∨ 100 < ("" : String).length →
      "item" ∈ offendingFields "a@b.com" "")) :=
  ⟨by decide, claim5_invalid_create ⟨[], 1⟩ (some "staff")
    ⟨"a@b.com", "", none, none⟩ (by decide)⟩

/-- Claim C3: a create or update request whose `X-User-Role` header is
anything but exactly `"staff"` (including absent) is answered 403 with
detail "Staff privileges required.", for any payload and any order id,
and leaves the store untouched with no logs and no queued tasks. -/
theorem claim3_forbidden (db : DB) (role : Option String)
    (raw : RawCreatePayload) (oid : Nat) (rawStatus : String)
    (hrole : role ≠ some "staff") :
    create_order db role raw
      = ⟨.forbidden "Staff privileges required.", db, [], []⟩ ∧
    update_order db role oid rawStatus
      = ⟨.forbidden "Staff privileges required.", db, [], []⟩ ∧
    (create_order db role raw).response.code = 403 ∧
    (update_order db role oid rawStatus).response.code = 403 := by
  refine ⟨?_, ?_, ?_, ?_⟩ <;> simp [create_order, update_order, hrole, Response.code]

/-- Claim C3 witness at a concrete non-staff role. -/
theorem claim3_forbidden_witness :
    (some "admin" : Option String) ≠ some "staff" ∧
    (create_order ⟨[], 1⟩ (some "admin") ⟨"a@b.com", "Widget", none, none⟩
        = ⟨.forbidden "Staff privileges required.", ⟨[], 1⟩, [], []⟩ ∧
      update_order ⟨[], 1⟩ (some "admin") 1 "processing"
        = ⟨.forbidden "Staff privileges required.", ⟨[], 1⟩, [], []⟩ ∧
      (create_order ⟨[], 1⟩ (some "admin") ⟨"a@b.com", "Widget", none, none⟩).response.code = 403 ∧
      (update_order ⟨[], 1⟩ (some "admin") 1 "processing").response.code = 403) :=
  ⟨by decide, claim3_forbidden ⟨[], 1⟩ (some "admin") ⟨"a@b.com", "Widget", none, none⟩ 1 "processing" (by decide)⟩

/-- Claim C6: with role staff and a well-formed status, an update on an
absent id answers 404 with detail "Order not found." and no side
effects; a get on an absent id answers the same 404; and the get
handler never logs, never mutates the store, and queues no task. -/
theorem claim6_not_found (db : DB) (oid : Nat) (s : OrderStatus)
    (hmiss : findOrder db oid = none) :
    update_order db (some "staff") oid s.toStr
      = ⟨.notFound "Order not found.", db, [], []⟩ ∧
    get_order db oid = ⟨.notFound "Order not found.", db, [], []⟩ ∧
    (∀ (db2 : DB) (oid2 : Nat),
      (get_order db2 oid2).logs = [] ∧ (get_order db2 oid2).db = db2 ∧
      (get_order db2 oid2).tasks = []) := by
  refine ⟨?_, ?_, ?_⟩
  · simp [update_order, parseStatus_toStr, hmiss]
  · simp [get_order, hmiss]
  · intro db2 oid2
    unfold get_order
    cases findOrder db2 oid2 <;> exact ⟨rfl, rfl, rfl⟩

/-- Claim C6 witness on a store that lacks id 2. -/
theorem claim6_not_found_witness :
    findOrder ⟨[⟨1, "a@b.com", "Widget", .created⟩], 2⟩ 2 = none ∧
    (update_order ⟨[⟨1, "a@b.com", "Widget", .created⟩], 2⟩ (some "staff") 2
        OrderStatus.processing.toStr
      = ⟨.notFound "Order not found.", ⟨[⟨1, "a@b.com", "Widget", .created⟩], 2⟩, [], []⟩ ∧
    get_order ⟨[⟨1, "a@b.com", "Widget", .created⟩], 2⟩ 2
      = ⟨.notFound "Order not found.", ⟨[⟨1, "a@b.com", "Widget", .created⟩], 2⟩, [], []⟩ ∧
    (∀ (db2 : DB) (oid2 : Nat),
      (get_order db2 oid2).logs = [] ∧ (get_order db2 oid2).db = db2 ∧
      (get_order db2 oid2).tasks = [])) :=
  ⟨by decide, claim6_not_found ⟨[⟨1, "a@b.com", "Widget", .created⟩], 2⟩ 2
    OrderStatus.processing (by decide)⟩

/-- Claim C10: the create handler reads only the two declared
`OrderCreate` fields — its entire result is unchanged when
client-supplied extra id/status fields are stripped — and any created
order carries the engine-assigned id and status `created`. -/
theorem claim10_extras_ignored (db : DB) (role : Option String)
    (raw : RawCreatePayload) :
    create_order db role raw
      = create_order db role ⟨raw.customer_email, raw.item, none, none⟩ ∧
    (∀ o : Order, (create_order db role raw).response = .created o →
      o.id = db.nextId ∧ o.status = .created) := by
  constructor
  · rfl
  · intro o h
    unfold create_order at h
    split at h
    · exact absurd h (by simp)
    · split at h
      · exact absurd h (by simp)
      · simp only [Response.created.injEq] at h
        subst h
        exact ⟨rfl, rfl⟩

/-- Claim C10 witness: a payload smuggling an explicit id and status. -/
theorem claim10_extras_ignored_witness :
    create_order ⟨[], 1⟩ (some "staff")
        ⟨"a@b.com", "Widget", some 99, some .completed⟩
      = create_order ⟨[], 1⟩ (some "staff") ⟨"a@b.com", "Widget", none, none⟩ ∧
    (∀ o : Order,
      (create_order ⟨[], 1⟩ (some "staff")
          ⟨"a@b.com", "Widget", some 99, some .completed⟩).response = .created o →
      o.id = (⟨[], 1⟩ : DB).nextId ∧ o.status = .created) :=
  claim10_extras_ignored ⟨[], 1⟩ (some "staff")
    ⟨"a@b.com", "Widget", some 99, some .completed⟩

/-- Claim C7: a successful create emits exactly one audit record with
event `order_created` and a successful update exactly one with event
`order_updated`, each carrying the order id and the acting role; the
formatter renders an audit record as exactly the five fields, and any
`None` field among event/order_id/user is omitted from the output
rather than emitted. -/
theorem claim7_audit_records (db : DB) (raw : RawCreatePayload) (oid : Nat)
    (s : OrderStatus) (o : Order)
    (hok : offendingFields raw.customer_email raw.item = [])
    (hfind : findOrder db oid = some o) :
    (create_order db (some "staff") raw).logs
      = [auditLog "order_created" db.nextId "staff"] ∧
    (update_order db (some "staff") oid s.toStr).logs
      = [auditLog "order_updated" o.id "staff"] ∧
    (∀ ev i u, formatRecord (auditLog ev i u)
      = [("level", .s "INFO"), ("message", .m (.txt "")), ("event", .s ev),
         ("order_id", .n i), ("user", .s u)]) ∧
    (∀ r : LogRecord, r.event = none → ∀ v, ("event", v) ∉ formatRecord r) ∧
    (∀ r : LogRecord, r.order_id = none → ∀ v, ("order_id", v) ∉ formatRecord r) ∧
    (∀ r : LogRecord, r.user = none → ∀ v, ("user", v) ∉ formatRecord r) := by
  refine ⟨by simp [create_order, hok],
    by simp [update_order, parseStatus_toStr, hfind],
    fun ev i u => rfl, ?_, ?_, ?_⟩
  · intro r h v
    cases hoid : r.order_id <;> cases hu : r.user <;>
      simp [formatRecord, h, hoid, hu]
  · intro r h v
    cases hev : r.event <;> cases hu : r.user <;>
      simp [formatRecord, h, hev, hu]
  · intro r h v
    cases hev : r.event <;> cases hoid : r.order_id <;>
      simp [formatRecord, h, hev, hoid]

/-- Claim C7 witness: concrete audit records for one create and one
update. -/
theorem claim7_audit_records_witness :
    offendingFields "a@b.com" "Widget" = [] ∧
    findOrder ⟨[⟨1, "a@b.com", "Widget", .created⟩], 2⟩ 1
      = some ⟨1, "a@b.com", "Widget", .created⟩ ∧
    ((create_order ⟨[⟨1, "a@b.com", "Widget", .created⟩], 2⟩ (some "staff")
        ⟨"a@b.com", "Widget", none, none⟩).logs
      = [auditLog "order_created" 2 "staff"] ∧
    (update_order ⟨[⟨1, "a@b.com", "Widget", .created⟩], 2⟩ (some "staff") 1
        OrderStatus.processing.toStr).logs
      = [auditLog "order_updated" 1 "staff"] ∧
    (∀ ev i u, formatRecord (auditLog ev i u)
      = [("level", .s "INFO"), ("message", .m (.txt "")), ("event", .s ev),
         ("order_id", .n i), ("user", .s u)]) ∧
    (∀ r : LogRecord, r.event = none → ∀ v, ("event", v) ∉ formatRecord r) ∧
    (∀ r : LogRecord, r.order_id = none → ∀ v, ("order_id", v) ∉ formatRecord r) ∧
    (∀ r : LogRecord, r.user = none → ∀ v, ("user", v) ∉ formatRecord r)) :=
  ⟨by decide, by decide,
    claim7_audit_records ⟨[⟨1, "a@b.com", "Widget", .created⟩], 2⟩
      ⟨"a@b.com", "Widget", none, none⟩ 1 .processing
      ⟨1, "a@b.com", "Widget", .created⟩ (by decide) (by decide)⟩

/-- Claim C4: the create handler never queues a notification; running
queued tasks after the response only appends their log output and can
change neither the response nor the store; a successful update queues
exactly one task carrying the customer email, order id and new status;
any failed update (403, 404 or 422) queues none. -/
theorem claim4_notification_policy (db : DB) (role : Option String)
    (raw : RawCreatePayload) (oid : Nat) (rawStatus : String) :
    (create_order db role raw).tasks = [] ∧
    (runRequest (create_order db role raw)).response
      = (create_order db role raw).response ∧
    (runRequest (update_order db role oid rawStatus)).response
      = (update_order db role oid rawStatus).response ∧
    (runRequest (update_order db role oid rawStatus)).db
      = (update_order db role oid rawStatus).db ∧
    (∀ o : Order, findOrder db oid = some o → ∀ s : OrderStatus,
      parseStatus rawStatus = some s → role = some "staff" →
      (update_order db role oid rawStatus).tasks
        = [⟨o.customer_email, o.id, s⟩]) ∧
    ((update_order db role oid rawStatus).response.code ≠ 200 →
      (update_order db role oid rawStatus).tasks = []) := by
  refine ⟨?_, rfl, rfl, rfl, ?_, ?_⟩
  · by_cases hr : role = some "staff"
    · by_cases he : offendingFields raw.customer_email raw.item = []
      · simp [create_order, hr, he]
      · simp [create_order, hr, he]
    · simp [create_order, hr]
  · intro o hf s hp hr
    simp [update_order, hr, hp, hf]
  · intro hne
    by_cases hr : role = some "staff"
    · cases hp : parseStatus rawStatus with
      | none => simp [update_order, hr, hp]
      | some s =>
          cases hf : findOrder db oid with
          | none => simp [update_order, hr, hp, hf]
          | some o =>
              exact absurd (by simp [update_order, hr, hp, hf, Response.code]) hne
    · simp [update_order, hr]

/-- Claim C4 witness: one successful update queues exactly one task, a
create and a forbidden update queue none. -/
theorem claim4_notification_policy_witness :
    (create_order ⟨[], 1⟩ (some "staff")
        ⟨"a@b.com", "Widget", none, none⟩).tasks = [] ∧
    (update_order ⟨[⟨1, "a@b.com", "Widget", .created⟩], 2⟩ (some "staff") 1
        "processing").tasks = [⟨"a@b.com", 1, .processing⟩] ∧
    (update_order ⟨[⟨1, "a@b.com", "Widget", .created⟩], 2⟩ none 1
        "processing").tasks = [] :=
  ⟨(claim4_notification_policy ⟨[], 1⟩ (some "staff")
      ⟨"a@b.com", "Widget", none, none⟩ 1 "processing").1,
   (claim4_notification_policy ⟨[⟨1, "a@b.com", "Widget", .created⟩], 2⟩
      (some "staff") ⟨"a@b.com", "Widget", none, none⟩ 1
      "processing").2.2.2.2.1 ⟨1, "a@b.com", "Widget", .created⟩ (by decide)
      .processing (by decide) (by decide),
   (claim4_notification_policy ⟨[⟨1, "a@b.com", "Widget", .created⟩], 2⟩
      none ⟨"a@b.com", "Widget", none, none⟩ 1 "processing").2.2.2.2.2
      (by decide)⟩

/-- Claim C9: repeating the same staff update twice answers 200 both
times; the second response, store state and queued task list coincide
with the first round's, so the only observable difference of the pair
is that two dispatch attempts are made instead of one. -/
theorem claim9_update_idempotent (db : DB) (oid : Nat) (o : Order)
    (s : OrderStatus) (hfind : findOrder db oid = some o) :
    (update_order db (some "staff") oid s.toStr).response.code = 200 ∧
    (update_order (update_order db (some "staff") oid s.toStr).db
        (some "staff") oid s.toStr).response.code = 200 ∧
    (update_order (update_order db (some "staff") oid s.toStr).db
        (some "staff") oid s.toStr).response
      = (update_order db (some "staff") oid s.toStr).response ∧
    (update_order (update_order db (some "staff") oid s.toStr).db
        (some "staff") oid s.toStr).db
      = (update_order db (some "staff") oid s.toStr).db ∧
    (update_order db (some "staff") oid s.toStr).tasks
      = [⟨o.customer_email, o.id, s⟩] ∧
    (update_order (update_order db (some "staff") oid s.toStr).db
        (some "staff") oid s.toStr).tasks
      = (update_order db (some "staff") oid s.toStr).tasks := by
  have h1 := update_order_found db oid o s hfind
  have hfind2 : findOrder (⟨db.orders.map
      (fun p => if p.id == oid then { p with status := s } else p),
        db.nextId⟩ : DB) oid = some { o with status := s } :=
    find?_map_setStatus oid s db.orders o hfind
  have h2 := update_order_found
    ⟨db.orders.map (fun p => if p.id == oid then { p with status := s } else p),
      db.nextId⟩ oid { o with status := s } s hfind2
  dsimp only at h2
  rw [map_setStatus_idem] at h2
  have h1db : (update_order db (some "staff") oid s.toStr).db
      = ⟨db.orders.map (fun p => if p.id == oid then { p with status := s } else p),
          db.nextId⟩ := by rw [h1]
  refine ⟨?_, ?_, ?_, ?_, ?_, ?_⟩
  · rw [h1]; rfl
  · rw [h1db, h2]; rfl
  · rw [h1db, h2, h1]
  · rw [h1db, h2]
  · rw [h1]
  · rw [h1db, h2, h1]

/-- Claim C9 witness: the same `processing` update twice on one row. -/
theorem claim9_update_idempotent_witness :
    findOrder ⟨[⟨1, "a@b.com", "Widget", .created⟩], 2⟩ 1
      = some ⟨1, "a@b.com", "Widget", .created⟩ ∧
    ((update_order ⟨[⟨1, "a@b.com", "Widget", .created⟩], 2⟩ (some "staff") 1
        OrderStatus.processing.toStr).response.code = 200 ∧
    (update_order (update_order ⟨[⟨1, "a@b.com", "Widget", .created⟩], 2⟩
        (some "staff") 1 OrderStatus.processing.toStr).db
        (some "staff") 1 OrderStatus.processing.toStr).response.code = 200 ∧
    (update_order (update_order ⟨[⟨1, "a@b.com", "Widget", .created⟩], 2⟩
        (some "staff") 1 OrderStatus.processing.toStr).db
        (some "staff") 1 OrderStatus.processing.toStr).response
      = (update_order ⟨[⟨1, "a@b.com", "Widget", .created⟩], 2⟩
          (some "staff") 1 OrderStatus.processing.toStr).response ∧
    (update_order (update_order ⟨[⟨1, "a@b.com", "Widget", .created⟩], 2⟩
        (some "staff") 1 OrderStatus.processing.toStr).db
        (some "staff") 1 OrderStatus.processing.toStr).db
      = (update_order ⟨[⟨1, "a@b.com", "Widget", .created⟩], 2⟩
          (some "staff") 1 OrderStatus.processing.toStr).db ∧
    (update_order ⟨[⟨1, "a@b.com", "Widget", .created⟩], 2⟩ (some "staff") 1
        OrderStatus.processing.toStr).tasks = [⟨"a@b.com", 1, .processing⟩] ∧
    (update_order (update_order ⟨[⟨1, "a@b.com", "Widget", .created⟩], 2⟩
        (some "staff") 1 OrderStatus.processing.toStr).db
        (some "staff") 1 OrderStatus.processing.toStr).tasks
      = (update_order ⟨[⟨1, "a@b.com", "Widget", .created⟩], 2⟩
          (some "staff") 1 OrderStatus.processing.toStr).tasks) :=
  ⟨by decide, claim9_update_idempotent ⟨[⟨1, "a@b.com", "Widget", .created⟩], 2⟩
    1 ⟨1, "a@b.com", "Widget", .created⟩ .processing (by decide)⟩

/-- Claim C8 counterexample: on a concrete successful update the
dispatch is logged, but `mock_send_email` passes no `extra`, so the
record's structured `event` attribute is `None` and the formatted
output carries only `level` and `message` keys — its event field is
not `notification_sent`; the data sits inside the message text. -/
theorem claim8_event_field_absent :
    (runRequest (update_order ⟨[⟨1, "a@b.com", "Widget", .created⟩], 2⟩
        (some "staff") 1 "processing")).logs
      = [auditLog "order_updated" 1 "staff",
         mock_send_email "a@b.com" 1 .processing] ∧
    (mock_send_email "a@b.com" 1 .processing).event = none ∧
    (formatRecord (mock_send_email "a@b.com" 1 .processing)).map Prod.fst
      = ["level", "message"] := by decide

/-- Claim C8 (amended): every dispatch attempt of a successful update
is recorded as its own log line whose message is the rendering of the
dict `event=notification_sent, order_id, email, status`; the record's
structured event/order_id/user attributes stay `None`, so the
formatted line holds only the `level` and `message` keys. -/
theorem claim8_notification_log (db : DB) (oid : Nat) (o : Order)
    (s : OrderStatus) (hfind : findOrder db oid = some o) :
    (runRequest (update_order db (some "staff") oid s.toStr)).logs
      = [auditLog "order_updated" o.id "staff",
         ⟨"INFO", .dict "notification_sent" o.id o.customer_email s,
           none, none, none⟩] ∧
    (formatRecord (mock_send_email o.customer_email o.id s)).map Prod.fst
      = ["level", "message"] := by
  constructor
  · simp [update_order, parseStatus_toStr, hfind, runRequest, runTask,
      mock_send_email]
  · rfl

/-- Claim C8 amended witness at the concrete one-row store. -/
theorem claim8_notification_log_witness :
    findOrder ⟨[⟨1, "a@b.com", "Widget", .created⟩], 2⟩ 1
      = some ⟨1, "a@b.com", "Widget", .created⟩ ∧
    ((runRequest (update_order ⟨[⟨1, "a@b.com", "Widget", .created⟩], 2⟩
        (some "staff") 1 OrderStatus.completed.toStr)).logs
      = [auditLog "order_updated" 1 "staff",
         ⟨"INFO", .dict "notification_sent" 1 "a@b.com" .completed,
           none, none, none⟩] ∧
    (formatRecord (mock_send_email "a@b.com" 1 .completed)).map Prod.fst
      = ["level", "message"]) :=
  ⟨by decide, claim8_notification_log ⟨[⟨1, "a@b.com", "Widget", .created⟩], 2⟩
    1 ⟨1, "a@b.com", "Widget", .created⟩ .completed (by decide)⟩

end OrderApi
